import Mathlib

/-!
Shallow embedding of the two GeoClaw run-configuration modules of this
repository, src/CalSet/testrun_hagibis/setrun.py and
src/testrun_haishen/setrun.py, and proofs about the run specifications
they build.  Floating-point constants of the source are modelled as exact
rationals; the values np.infty and -np.infty appearing in the friction
tables get their own inductive type.  The module-level expression
os.getcwd() is modelled by an explicit cwd argument threaded through the
builders.
-/

/-- Python str.lower restricted to ASCII letters, which is all the
configuration code compares (the argument is tested against the ASCII
string "geoclaw"). -/
def pyLowerChar (c : Char) : Char :=
  if 65 ≤ c.toNat ∧ c.toNat ≤ 90 then Char.ofNat (c.toNat + 32) else c

/-- Python str.lower applied to every character of the string. -/
def pyLower (s : String) : String :=
  ⟨s.data.map pyLowerChar⟩

/-- Model of os.path.join for the joins the source performs, where the
second component is a relative path. -/
def pathJoin (a b : String) : String := a ++ "/" ++ b

/-- Embeds days2seconds of both setrun.py files (identical in the two):
days * 60.0 ** 2 * 24.0. -/
def days2seconds (days : ℚ) : ℚ := days * 60 ^ 2 * 24

/-- Embeds the module-level topodir of both setrun.py files:
os.path.join(os.getcwd(), two dots, topo). -/
def topodir (cwd : String) : String := pathJoin (pathJoin cwd "..") "topo"

/-- A float value of the friction tables: np.infty, -np.infty or a finite
rational. -/
inductive FDepth where
  | posInf : FDepth
  | negInf : FDepth
  | val : ℚ → FDepth
deriving DecidableEq, Repr, Inhabited

/-- Strict order on friction-table depth values, -infinity below every
finite value below +infinity. -/
def FDepth.blt : FDepth → FDepth → Bool
  | .negInf, .negInf => false
  | .negInf, _ => true
  | .val _, .negInf => false
  | .val a, .val b => decide (a < b)
  | .val _, .posInf => true
  | .posInf, _ => false

/-- A list of depth values is strictly descending. -/
def fdepthsDescending : List FDepth → Bool
  | a :: b :: rest => FDepth.blt b a && fdepthsDescending (b :: rest)
  | _ => true

/-- A dynamically typed Python value as the configuration code stores in
some attributes (a bool flag, a scalar, or a list of floats). -/
inductive PyVal where
  | pyBool : Bool → PyVal
  | pyRat : ℚ → PyVal
  | pyRatList : List ℚ → PyVal
deriving DecidableEq, Repr, Inhabited

/-- The clawdata fields the two setrun variants assign (rundata.clawdata). -/
structure ClawData where
  num_dim : Nat
  lower : List ℚ
  upper : List ℚ
  num_cells : List Nat
  num_eqn : Nat
  num_aux : Nat
  capa_index : Nat
  t0 : ℚ
  restart : Bool
  restart_file : String
  output_style : Nat
  tfinal : ℚ
  output_times : List ℚ
  output_format : String
  output_q_components : String
  output_aux_components : String
  output_aux_onlyonce : Bool
  verbosity : Nat
  dt_variable : Bool
  dt_initial : ℚ
  dt_max : ℚ
  cfl_desired : ℚ
  cfl_max : ℚ
  steps_max : Nat
  order : Nat
  dimensional_split : String
  transverse_waves : Nat
  num_waves : Nat
  limiter : List String
  use_fwaves : Bool
  source_split : String
  num_ghost : Nat
  bc_lower : List String
  bc_upper : List String
  checkpt_style : Int
deriving DecidableEq, Repr, Inhabited

/-- The amrdata fields the two setrun variants assign (rundata.amrdata). -/
structure AmrData where
  amr_levels_max : Nat
  refinement_ratios_x : List Nat
  refinement_ratios_y : List Nat
  refinement_ratios_t : List Nat
  aux_type : List String
  flag_richardson : Bool
  flag2refine : Bool
  regrid_interval : Nat
  regrid_buffer_width : Nat
  clustering_cutoff : ℚ
  verbosity_regrid : Nat
deriving DecidableEq, Repr, Inhabited

/-- A refinement region entry [minlevel, maxlevel, t1, t2, x1, x2, y1, y2]
of rundata.regiondata.regions. -/
structure Region where
  minlevel : Nat
  maxlevel : Nat
  t1 : ℚ
  t2 : ℚ
  x1 : ℚ
  x2 : ℚ
  y1 : ℚ
  y2 : ℚ
deriving DecidableEq, Repr, Inhabited

/-- A gauge entry [gaugeno, x, y, t1, t2] of rundata.gaugedata.gauges. -/
structure Gauge where
  id : Nat
  x : ℚ
  y : ℚ
  t1 : ℚ
  t2 : ℚ
deriving DecidableEq, Repr, Inhabited

/-- The geo_data fields assigned by setgeo. -/
structure GeoData where
  gravity : ℚ
  coordinate_system : Nat
  earth_radius : ℚ
  rho : ℚ
  rho_air : ℚ
  ambient_pressure : ℚ
  coriolis_forcing : Bool
  friction_forcing : Bool
  manning_coefficient : ℚ
  friction_depth : ℚ
  sea_level : ℚ
  dry_tolerance : ℚ
deriving DecidableEq, Repr, Inhabited

/-- The refinement_data fields assigned by setgeo. -/
structure RefinementData where
  wave_tolerance : ℚ
  speed_tolerance : PyVal
  deep_depth : ℚ
  max_level_deep : Nat
  variable_dt_refinement_ratios : Bool
deriving DecidableEq, Repr, Inhabited

/-- A topography entry [topotype, minlevel, maxlevel, t1, t2, fname] of
rundata.topo_data.topofiles. -/
structure TopoEntry where
  topotype : Nat
  minlevel : Nat
  maxlevel : Nat
  t1 : ℚ
  t2 : ℚ
  fname : String
deriving DecidableEq, Repr, Inhabited

/-- A ForceDry record as appended to rundata.qinit_data.force_dry_list. -/
structure ForceDry where
  tend : ℚ
  fname : String
deriving DecidableEq, Repr, Inhabited

/-- An fgmax grid as appended to rundata.fgmax_data.fgmax_grids. -/
structure FGmaxGrid where
  point_style : Nat
  dx : ℚ
  x1 : ℚ
  x2 : ℚ
  y1 : ℚ
  y2 : ℚ
  min_level_check : Nat
  arrival_tol : ℚ
  tstart_max : ℚ
  tend_max : ℚ
  dt_check : ℚ
  interp_method : Nat
deriving DecidableEq, Repr, Inhabited

/-- The surge_data fields assigned by setgeo (rundata.surge_data). -/
structure SurgeData where
  wind_forcing : Bool
  drag_law : Nat
  pressure_forcing : Bool
  wind_refine : PyVal
  R_refine : PyVal
  storm_type : Int
  storm_specification_type : String
  display_landfall_time : Bool
  storm_file : String
deriving DecidableEq, Repr, Inhabited

/-- A friction region entry [lower, upper, depths, manning coefficients]
of rundata.friction_data.friction_regions. -/
structure FrictionRegion where
  lower : List ℚ
  upper : List ℚ
  depths : List FDepth
  coefficients : List ℚ
deriving DecidableEq, Repr, Inhabited

/-- The friction_data fields assigned by setgeo. -/
structure FrictionData where
  variable_friction : Bool
  friction_regions : List FrictionRegion
deriving DecidableEq, Repr, Inhabited

/-- The parts of a ClawRunData object the two configuration modules write:
clawdata, amrdata, the region, gauge, topography, qinit, fgmax, surge and
friction registries.  In a fresh ClawRunData every registry list starts
empty. -/
structure RunData where
  clawdata : ClawData
  amrdata : AmrData
  regions : List Region
  gauges : List Gauge
  geo_data : GeoData
  refinement_data : RefinementData
  topofiles : List TopoEntry
  dtopofiles : List String
  qinit_type : Nat
  qinitfiles : List String
  force_dry_list : List ForceDry
  fixedgrids : List String
  fgmax_grids : List FGmaxGrid
  num_fgmax_val : Nat
  surge_data : SurgeData
  friction_data : FrictionData
deriving DecidableEq, Repr, Inhabited

/-- Embeds setgeo of src/CalSet/testrun_hagibis/setrun.py (lines 378-539):
geo_data, refinement_data, the five topography entries, qinit and ForceDry,
the two fgmax grids, surge_data and the friction region covering the whole
domain.  cwd models os.getcwd() read by the module-level topodir and by the
storm_file assignment. -/
def setgeo_hagibis (cwd : String) (rundata : RunData) : RunData :=
  { rundata with
    geo_data := {
      gravity := 9.81
      coordinate_system := 1
      earth_radius := 6367.5e3
      rho := 1025.0
      rho_air := 1.15
      ambient_pressure := 101.3e3
      coriolis_forcing := false
      friction_forcing := true
      manning_coefficient := 0.025
      friction_depth := 1e10
      sea_level := 0.0
      dry_tolerance := 1.e-2 }
    refinement_data := {
      wave_tolerance := 0.20
      speed_tolerance := .pyRatList [0.25, 0.50, 0.75, 1.00]
      deep_depth := 3.0e3
      max_level_deep := 2
      variable_dt_refinement_ratios := true }
    topofiles := [
      ⟨3, 1, 1, rundata.clawdata.t0, rundata.clawdata.tfinal,
        pathJoin (topodir cwd) "topo_01L_mask.dat"⟩,
      ⟨3, 1, 2, rundata.clawdata.t0, rundata.clawdata.tfinal,
        pathJoin (topodir cwd) "topo_02_mask.dat"⟩,
      ⟨3, 1, 3, rundata.clawdata.t0, rundata.clawdata.tfinal,
        pathJoin (topodir cwd) "topo_03_mask.dat"⟩,
      ⟨3, 1, 4, rundata.clawdata.t0, rundata.clawdata.tfinal,
        pathJoin (topodir cwd) "topo_04_mask.dat"⟩,
      ⟨3, 1, 5, rundata.clawdata.t0, rundata.clawdata.tfinal,
        pathJoin (topodir cwd) "topo_05.dat"⟩]
    dtopofiles := []
    qinit_type := 0
    qinitfiles := []
    force_dry_list := rundata.force_dry_list ++
      [⟨1e10, pathJoin (topodir cwd) "force_dry_init_05.dat"⟩]
    fixedgrids := []
    fgmax_grids := rundata.fgmax_grids ++ [
      { point_style := 2
        dx := 90.0
        x1 := -20790.0
        x2 := 28710.0 - 90.0
        y1 := -82690.0
        y2 := -19690.0 - 90.0
        min_level_check := 1
        arrival_tol := 1.0e-1
        tstart_max := 3600.0 * 48.0
        tend_max := 1.e10
        dt_check := 60.0
        interp_method := 0 },
      { point_style := 2
        dx := 30.0
        x1 := -11730.0
        x2 := 7770.0 - 30.0
        y1 := -49630.0
        y2 := -19930.0 - 30.0
        min_level_check := 1
        arrival_tol := 1.0e-1
        tstart_max := 3600.0 * 48.0
        tend_max := 1.e10
        dt_check := 60.0
        interp_method := 0 }]
    num_fgmax_val := 5
    surge_data := {
      wind_forcing := true
      drag_law := 4
      pressure_forcing := true
      wind_refine := .pyBool false
      R_refine := .pyBool false
      storm_type := -1
      storm_specification_type := "WRF"
      display_landfall_time := true
      storm_file := pathJoin cwd "../rcm/" }
    friction_data := {
      variable_friction := true
      friction_regions := rundata.friction_data.friction_regions ++
        [⟨rundata.clawdata.lower, rundata.clawdata.upper,
          [.posInf, .val 0.0, .negInf], [0.030, 0.022]⟩] } }

/-- Embeds the body of setrun of src/CalSet/testrun_hagibis/setrun.py after
the claw_pkg assertion (lines 57-372): clawdata, amrdata, the (empty)
region registry and the ten gauges, then the call of setgeo.  Registries
not assigned before setgeo keep the empty lists of a fresh ClawRunData. -/
def setrun_body_hagibis (cwd : String) : RunData :=
  setgeo_hagibis cwd
    { clawdata := {
        num_dim := 2
        lower := [-1062000.0, -862000.0]
        upper := [396000.0 - 2430.0, 377300.0 - 2430.0]
        num_cells := [599, 509]
        num_eqn := 3
        num_aux := 3 + 1 + 3
        capa_index := 0
        t0 := 0.0
        restart := false
        restart_file := "fort.chk00006"
        output_style := 2
        tfinal := days2seconds 5 + 3600.0
        output_times := (List.range 122).map (fun (i : ℕ) => (i : ℚ) * 3600.0)
        output_format := "ascii"
        output_q_components := "all"
        output_aux_components := "all"
        output_aux_onlyonce := false
        verbosity := 1
        dt_variable := true
        dt_initial := 0.02
        dt_max := 1e99
        cfl_desired := 0.50
        cfl_max := 0.70
        steps_max := 500000
        order := 1
        dimensional_split := "unsplit"
        transverse_waves := 1
        num_waves := 3
        limiter := ["mc", "mc", "mc"]
        use_fwaves := true
        source_split := "godunov"
        num_ghost := 4
        bc_lower := ["extrap", "extrap"]
        bc_upper := ["extrap", "extrap"]
        checkpt_style := 0 }
      amrdata := {
        amr_levels_max := 5
        refinement_ratios_x := [3, 3, 3, 3]
        refinement_ratios_y := [3, 3, 3, 3]
        refinement_ratios_t := [3, 3, 3, 3]
        aux_type := ["center", "center", "yleft", "center", "center",
          "center", "center", "center", "center"]
        flag_richardson := false
        flag2refine := true
        regrid_interval := 3
        regrid_buffer_width := 2
        clustering_cutoff := 0.700000
        verbosity_regrid := 0 }
      regions := []
      gauges := [
        ⟨1, -148259.0, -152271.0, 0.0, 1.e10⟩,
        ⟨2, -120163.0, -108297.0, 0.0, 1.e10⟩,
        ⟨3, -89128.0, -108677.0, 0.0, 1.e10⟩,
        ⟨4, -87745.0, -155540.0, 0.0, 1.e10⟩,
        ⟨5, -26157.0, -216277.0, 0.0, 1.e10⟩,
        ⟨6, -41183.0, -132450.0, 0.0, 1.e10⟩,
        ⟨7, -62196.0, -84840.0, 0.0, 1.e10⟩,
        ⟨8, -6036.0, -38828.0, 0.0, 1.e10⟩,
        ⟨9, -2430.0, -122612.0, 0.0, 1.e10⟩,
        ⟨10, 19237.0, -47900.0, 0.0, 1.e10⟩]
      geo_data := default
      refinement_data := default
      topofiles := []
      dtopofiles := []
      qinit_type := default
      qinitfiles := []
      force_dry_list := []
      fixedgrids := []
      fgmax_grids := []
      num_fgmax_val := default
      surge_data := default
      friction_data := { variable_friction := default, friction_regions := [] } }

/-- Embeds setgeo of src/testrun_haishen/setrun.py (lines 382-580):
geo_data, refinement_data, the single GEBCO2020 topography entry, qinit
(the ForceDry append is commented out in this variant), the single fgmax
grid, surge_data and the friction region covering the whole domain. -/
def setgeo_haishen (cwd : String) (rundata : RunData) : RunData :=
  { rundata with
    geo_data := {
      gravity := 9.81
      coordinate_system := 2
      earth_radius := 6367.5e3
      rho := 1025.0
      rho_air := 1.15
      ambient_pressure := 101.3e3
      coriolis_forcing := false
      friction_forcing := true
      manning_coefficient := 0.025
      friction_depth := 1e10
      sea_level := 0.0
      dry_tolerance := 1.e-2 }
    refinement_data := {
      wave_tolerance := 1.0
      speed_tolerance := .pyRat 1.0
      deep_depth := 3.0e3
      max_level_deep := 1
      variable_dt_refinement_ratios := true }
    topofiles := [
      ⟨3, 1, 4, rundata.clawdata.t0, rundata.clawdata.tfinal,
        pathJoin (topodir cwd) "gebco_2020_n60.0_s0.0_w105.0_e165.0_landmask.asc"⟩]
    dtopofiles := []
    qinit_type := 0
    qinitfiles := []
    fixedgrids := []
    fgmax_grids := rundata.fgmax_grids ++ [
      { point_style := 2
        dx := 1/10
        x1 := 125
        x2 := 145
        y1 := 25
        y2 := 45
        min_level_check := 1
        arrival_tol := 1.0e-1
        tstart_max := 3600.0 * 24
        tend_max := 1.e10
        dt_check := 60.0
        interp_method := 0 }]
    num_fgmax_val := 5
    surge_data := {
      wind_forcing := true
      drag_law := 1
      pressure_forcing := true
      wind_refine := .pyRatList [20.0, 30.0, 40.0]
      R_refine := .pyBool false
      storm_type := -2
      storm_specification_type := "WRF"
      display_landfall_time := true
      storm_file := pathJoin cwd "./" }
    friction_data := {
      variable_friction := true
      friction_regions := rundata.friction_data.friction_regions ++
        [⟨rundata.clawdata.lower, rundata.clawdata.upper,
          [.posInf, .val 0.0, .negInf], [0.030, 0.022]⟩] } }

/-- Embeds the body of setrun of src/testrun_haishen/setrun.py after the
claw_pkg assertion (lines 61-376): clawdata, amrdata, one refinement
region over the whole domain and the thirteen gauges, then the call of
setgeo. -/
def setrun_body_haishen (cwd : String) : RunData :=
  let clawdata : ClawData := {
    num_dim := 2
    lower := [120.0, 22.0]
    upper := [150.0, 52.0]
    num_cells := [300, 300]
    num_eqn := 3
    num_aux := 3 + 1 + 3
    capa_index := 2
    t0 := 0.0
    restart := false
    restart_file := "fort.chk00006"
    output_style := 2
    tfinal := days2seconds 5 + 3600.0
    output_times := (List.range 360).map (fun (i : ℕ) => (i : ℚ) * 1200.0)
    output_format := "ascii"
    output_q_components := "all"
    output_aux_components := "all"
    output_aux_onlyonce := false
    verbosity := 1
    dt_variable := true
    dt_initial := 0.5
    dt_max := 1e99
    cfl_desired := 0.50
    cfl_max := 0.70
    steps_max := 500000
    order := 1
    dimensional_split := "unsplit"
    transverse_waves := 1
    num_waves := 3
    limiter := ["mc", "mc", "mc"]
    use_fwaves := true
    source_split := "godunov"
    num_ghost := 4
    bc_lower := ["extrap", "extrap"]
    bc_upper := ["extrap", "extrap"]
    checkpt_style := 0 }
  setgeo_haishen cwd
    { clawdata := clawdata
      amrdata := {
        amr_levels_max := 2
        refinement_ratios_x := [6, 2, 2]
        refinement_ratios_y := [6, 2, 2]
        refinement_ratios_t := [6, 2, 2]
        aux_type := ["center", "capacity", "yleft", "center", "center",
          "center", "center", "center", "center"]
        flag_richardson := false
        flag2refine := true
        regrid_interval := 3
        regrid_buffer_width := 3
        clustering_cutoff := 0.700000
        verbosity_regrid := 0 }
      regions := [
        ⟨1, 2, clawdata.t0, clawdata.tfinal,
          clawdata.lower[0]!, clawdata.upper[0]!,
          clawdata.lower[1]!, clawdata.upper[1]!⟩]
      gauges := [
        ⟨1, 130.22, 33.00, 0.0, 1.e10⟩,
        ⟨2, 130.20, 32.57, 0.0, 1.e10⟩,
        ⟨3, 130.25, 33.10, 0.0, 1.e10⟩,
        ⟨4, 130.01, 32.47, 0.0, 1.e10⟩,
        ⟨5, 128.95, 32.70, 0.0, 1.e10⟩,
        ⟨6, 130.60, 31.10, 0.0, 1.e10⟩,
        ⟨7, 130.30, 31.20, 0.0, 1.e10⟩,
        ⟨8, 131.42, 31.58, 0.0, 1.e10⟩,
        ⟨9, 132.00, 32.97, 0.0, 1.e10⟩,
        ⟨10, 132.97, 32.60, 0.0, 1.e10⟩,
        ⟨11, 132.43, 33.25, 0.0, 1.e10⟩,
        ⟨12, 132.50, 33.80, 0.0, 1.e10⟩,
        ⟨13, 131.04, 34.00, 0.0, 1.e10⟩]
      geo_data := default
      refinement_data := default
      topofiles := []
      dtopofiles := []
      qinit_type := default
      qinitfiles := []
      force_dry_list := []
      fixedgrids := []
      fgmax_grids := []
      num_fgmax_val := default
      surge_data := default
      friction_data := { variable_friction := default, friction_regions := [] } }

/-- The two configuration variants of the repository. -/
inductive Variant where
  | hagibis
  | haishen
deriving DecidableEq, Repr, Inhabited

/-- The run specification a variant builds once the claw_pkg assertion has
passed. -/
def setrun_body : Variant → String → RunData
  | .hagibis => setrun_body_hagibis
  | .haishen => setrun_body_haishen

/-- Embeds setrun of both setrun.py files: the assertion
claw_pkg.lower() == "geoclaw" (an AssertionError is modelled as the error
branch), then the body of the selected variant. -/
def setrun (v : Variant) (claw_pkg : String) (cwd : String) :
    Except String RunData :=
  if pyLower claw_pkg = "geoclaw" then .ok (setrun_body v cwd)
  else .error "Expected claw_pkg = geoclaw"

/-- Modelled from the spec: the Validator check that a geographic run
designates a capacity auxiliary slot (spec section 4.1 and Scenario B; the
validator itself belongs to the external clawpack package, not to the
files of this repository).  A geographic configuration (coordinate_system
2) must carry a nonzero capa_index whose aux slot is typed capacity; a
Cartesian one is unconstrained. -/
def capacityAuxValid (r : RunData) : Prop :=
  r.geo_data.coordinate_system = 2 →
    r.clawdata.capa_index ≠ 0 ∧
    r.amrdata.aux_type.getD (r.clawdata.capa_index - 1) "" = "capacity"

/-- Modelled from the spec: validation of an explicit output-time list,
mode (b) of the OutputSchedule (spec section 3 and Scenario C; the
repository itself contains no validator).  The times must be strictly
increasing and lie within the simulation window. -/
def outputTimesValid (t0 tfinal : ℚ) (times : List ℚ) : Prop :=
  times.Pairwise (· < ·) ∧ ∀ t ∈ times, t0 ≤ t ∧ t ≤ tfinal

/-- Modelled from the spec: the build_grid validation of section 4.1,
failing when an axis has non-positive extent or cell count (the
repository assigns the domain directly, without a constructor). -/
def gridValid (r : RunData) : Prop :=
  (∀ p ∈ r.clawdata.lower.zip r.clawdata.upper, p.1 < p.2) ∧
  ∀ n ∈ r.clawdata.num_cells, 0 < n

/-- Modelled from the spec: add_gauge of the Monitoring Registry (spec
section 4.5), which refuses a gauge whose id is already present; the
repository appends gauge rows directly to rundata.gaugedata.gauges. -/
def add_gauge (gauges : List Gauge) (g : Gauge) : Except String (List Gauge) :=
  if gauges.any (fun h => h.id == g.id) then .error "DuplicateGaugeIdError"
  else .ok (gauges ++ [g])

/-- Erases the fields of a run specification that record filesystem paths
(topography file names, the ForceDry file name, the storm field
directory): exactly the fields through which os.getcwd() reaches the
specification. -/
def stripPaths (r : RunData) : RunData :=
  { r with
    topofiles := r.topofiles.map (fun e => { e with fname := "" })
    force_dry_list := r.force_dry_list.map (fun f => { f with fname := "" })
    surge_data := { r.surge_data with storm_file := "" } }

/-! Component extraction lemmas: each restates, by rfl, the value a built
specification holds in one component, so later proofs can rewrite the
cwd-parametric builder application into an explicit value. -/

theorem hagibis_t0 (cwd : String) :
    (setrun_body .hagibis cwd).clawdata.t0 = 0 := by
  show (0.0 : ℚ) = 0
  norm_num

theorem haishen_t0 (cwd : String) :
    (setrun_body .haishen cwd).clawdata.t0 = 0 := by
  show (0.0 : ℚ) = 0
  norm_num

theorem hagibis_tfinal (cwd : String) :
    (setrun_body .hagibis cwd).clawdata.tfinal = 435600 := by
  show days2seconds 5 + 3600.0 = (435600 : ℚ)
  norm_num [days2seconds]

theorem haishen_tfinal (cwd : String) :
    (setrun_body .haishen cwd).clawdata.tfinal = 435600 := by
  show days2seconds 5 + 3600.0 = (435600 : ℚ)
  norm_num [days2seconds]

theorem hagibis_amrdata (cwd : String) : (setrun_body .hagibis cwd).amrdata = {
    amr_levels_max := 5
    refinement_ratios_x := [3, 3, 3, 3]
    refinement_ratios_y := [3, 3, 3, 3]
    refinement_ratios_t := [3, 3, 3, 3]
    aux_type := ["center", "center", "yleft", "center", "center",
      "center", "center", "center", "center"]
    flag_richardson := false
    flag2refine := true
    regrid_interval := 3
    regrid_buffer_width := 2
    clustering_cutoff := 0.700000
    verbosity_regrid := 0 } := rfl

theorem haishen_amrdata (cwd : String) : (setrun_body .haishen cwd).amrdata = {
    amr_levels_max := 2
    refinement_ratios_x := [6, 2, 2]
    refinement_ratios_y := [6, 2, 2]
    refinement_ratios_t := [6, 2, 2]
    aux_type := ["center", "capacity", "yleft", "center", "center",
      "center", "center", "center", "center"]
    flag_richardson := false
    flag2refine := true
    regrid_interval := 3
    regrid_buffer_width := 3
    clustering_cutoff := 0.700000
    verbosity_regrid := 0 } := rfl

theorem hagibis_topofiles (cwd : String) : (setrun_body .hagibis cwd).topofiles = [
    ⟨3, 1, 1, 0.0, days2seconds 5 + 3600.0, pathJoin (topodir cwd) "topo_01L_mask.dat"⟩,
    ⟨3, 1, 2, 0.0, days2seconds 5 + 3600.0, pathJoin (topodir cwd) "topo_02_mask.dat"⟩,
    ⟨3, 1, 3, 0.0, days2seconds 5 + 3600.0, pathJoin (topodir cwd) "topo_03_mask.dat"⟩,
    ⟨3, 1, 4, 0.0, days2seconds 5 + 3600.0, pathJoin (topodir cwd) "topo_04_mask.dat"⟩,
    ⟨3, 1, 5, 0.0, days2seconds 5 + 3600.0, pathJoin (topodir cwd) "topo_05.dat"⟩] := rfl

theorem haishen_topofiles (cwd : String) : (setrun_body .haishen cwd).topofiles = [
    ⟨3, 1, 4, 0.0, days2seconds 5 + 3600.0,
      pathJoin (topodir cwd) "gebco_2020_n60.0_s0.0_w105.0_e165.0_landmask.asc"⟩] := rfl

theorem hagibis_friction_regions (cwd : String) :
    (setrun_body .hagibis cwd).friction_data.friction_regions =
      [⟨[-1062000.0, -862000.0], [396000.0 - 2430.0, 377300.0 - 2430.0],
        [.posInf, .val 0.0, .negInf], [0.030, 0.022]⟩] := rfl

theorem haishen_friction_regions (cwd : String) :
    (setrun_body .haishen cwd).friction_data.friction_regions =
      [⟨[120.0, 22.0], [150.0, 52.0],
        [.posInf, .val 0.0, .negInf], [0.030, 0.022]⟩] := rfl

theorem hagibis_gauges (cwd : String) : (setrun_body .hagibis cwd).gauges = [
    ⟨1, -148259.0, -152271.0, 0.0, 1.e10⟩,
    ⟨2, -120163.0, -108297.0, 0.0, 1.e10⟩,
    ⟨3, -89128.0, -108677.0, 0.0, 1.e10⟩,
    ⟨4, -87745.0, -155540.0, 0.0, 1.e10⟩,
    ⟨5, -26157.0, -216277.0, 0.0, 1.e10⟩,
    ⟨6, -41183.0, -132450.0, 0.0, 1.e10⟩,
    ⟨7, -62196.0, -84840.0, 0.0, 1.e10⟩,
    ⟨8, -6036.0, -38828.0, 0.0, 1.e10⟩,
    ⟨9, -2430.0, -122612.0, 0.0, 1.e10⟩,
    ⟨10, 19237.0, -47900.0, 0.0, 1.e10⟩] := rfl

theorem haishen_gauges (cwd : String) : (setrun_body .haishen cwd).gauges = [
    ⟨1, 130.22, 33.00, 0.0, 1.e10⟩,
    ⟨2, 130.20, 32.57, 0.0, 1.e10⟩,
    ⟨3, 130.25, 33.10, 0.0, 1.e10⟩,
    ⟨4, 130.01, 32.47, 0.0, 1.e10⟩,
    ⟨5, 128.95, 32.70, 0.0, 1.e10⟩,
    ⟨6, 130.60, 31.10, 0.0, 1.e10⟩,
    ⟨7, 130.30, 31.20, 0.0, 1.e10⟩,
    ⟨8, 131.42, 31.58, 0.0, 1.e10⟩,
    ⟨9, 132.00, 32.97, 0.0, 1.e10⟩,
    ⟨10, 132.97, 32.60, 0.0, 1.e10⟩,
    ⟨11, 132.43, 33.25, 0.0, 1.e10⟩,
    ⟨12, 132.50, 33.80, 0.0, 1.e10⟩,
    ⟨13, 131.04, 34.00, 0.0, 1.e10⟩] := rfl

theorem hagibis_lower (cwd : String) :
    (setrun_body .hagibis cwd).clawdata.lower = [-1062000.0, -862000.0] := rfl

theorem hagibis_upper (cwd : String) :
    (setrun_body .hagibis cwd).clawdata.upper =
      [396000.0 - 2430.0, 377300.0 - 2430.0] := rfl

theorem hagibis_num_cells (cwd : String) :
    (setrun_body .hagibis cwd).clawdata.num_cells = [599, 509] := rfl

theorem hagibis_coordinate_system (cwd : String) :
    (setrun_body .hagibis cwd).geo_data.coordinate_system = 1 := rfl

theorem haishen_coordinate_system (cwd : String) :
    (setrun_body .haishen cwd).geo_data.coordinate_system = 2 := rfl

theorem hagibis_capa_index (cwd : String) :
    (setrun_body .hagibis cwd).clawdata.capa_index = 0 := rfl

theorem haishen_capa_index (cwd : String) :
    (setrun_body .haishen cwd).clawdata.capa_index = 2 := rfl

theorem hagibis_output_times (cwd : String) :
    (setrun_body .hagibis cwd).clawdata.output_times =
      (List.range 122).map (fun (i : ℕ) => (i : ℚ) * 3600.0) := rfl

theorem haishen_output_times (cwd : String) :
    (setrun_body .haishen cwd).clawdata.output_times =
      (List.range 360).map (fun (i : ℕ) => (i : ℚ) * 1200.0) := rfl

/-- The image of List.range under multiplication by a positive constant is
strictly increasing. -/
theorem rangeMulPairwise (c : ℚ) (hc : 0 < c) (n : ℕ) :
    ((List.range n).map (fun (i : ℕ) => (i : ℚ) * c)).Pairwise (· < ·) :=
  List.Pairwise.map (fun (i : ℕ) => (i : ℚ) * c)
    (fun a b hab => mul_lt_mul_of_pos_right (by exact_mod_cast hab) hc)
    (List.pairwise_lt_range n)

/-- Every element of the image of List.range under multiplication by a
nonnegative constant lies between 0 and the image of the last index. -/
theorem rangeMulBounds (c : ℚ) (hc : 0 ≤ c) (n : ℕ) :
    ∀ t ∈ (List.range n).map (fun (i : ℕ) => (i : ℚ) * c),
      0 ≤ t ∧ t ≤ ((n - 1 : ℕ) : ℚ) * c := by
  intro t ht
  obtain ⟨i, hi, rfl⟩ := List.mem_map.mp ht
  rw [List.mem_range] at hi
  refine ⟨by positivity, ?_⟩
  have h1 : (i : ℚ) ≤ ((n - 1 : ℕ) : ℚ) := by
    have h2 : i ≤ n - 1 := by omega
    exact_mod_cast h2
  exact mul_le_mul_of_nonneg_right h1 hc

/-- Adding a gauge whose id is already registered fails with the duplicate
id error. -/
theorem add_gauge_mem_error (gauges : List Gauge) (g : Gauge) (hg : g ∈ gauges) :
    add_gauge gauges g = Except.error "DuplicateGaugeIdError" := by
  have h : gauges.any (fun h => h.id == g.id) = true :=
    List.any_eq_true.mpr ⟨g, hg, by simp⟩
  simp [add_gauge, h]

/-- C1 (counterexample): in the Haishen configuration the x refinement
ratio list has length 3 while amr_levels_max - 1 = 1, so the ratio-list
length does not always equal amr_levels_max - 1. -/
theorem c1_haishen_ratio_length_mismatch :
    (setrun_body .haishen "/run").amrdata.refinement_ratios_x.length ≠
      (setrun_body .haishen "/run").amrdata.amr_levels_max - 1 := by decide

/-- C1 (amended): the three per-axis refinement ratio lists of a
configuration always have equal length, and that length is at least
amr_levels_max - 1; in the Hagibis configuration it equals
amr_levels_max - 1 exactly, while the Haishen configuration keeps lists of
length 3 with amr_levels_max - 1 = 1 (surplus entries are kept, not
truncated). -/
theorem c1_refinement_ratio_lengths (cwd : String) :
    ((setrun_body .hagibis cwd).amrdata.refinement_ratios_x.length =
        (setrun_body .hagibis cwd).amrdata.amr_levels_max - 1 ∧
      (setrun_body .hagibis cwd).amrdata.refinement_ratios_y.length =
        (setrun_body .hagibis cwd).amrdata.amr_levels_max - 1 ∧
      (setrun_body .hagibis cwd).amrdata.refinement_ratios_t.length =
        (setrun_body .hagibis cwd).amrdata.amr_levels_max - 1) ∧
    ((setrun_body .haishen cwd).amrdata.refinement_ratios_x.length = 3 ∧
      (setrun_body .haishen cwd).amrdata.refinement_ratios_y.length = 3 ∧
      (setrun_body .haishen cwd).amrdata.refinement_ratios_t.length = 3 ∧
      (setrun_body .haishen cwd).amrdata.amr_levels_max - 1 ≤
        (setrun_body .haishen cwd).amrdata.refinement_ratios_x.length ∧
      1 ≤ (setrun_body .haishen cwd).amrdata.amr_levels_max) := by
  rw [hagibis_amrdata, haishen_amrdata]
  decide

/-- C2 (counterexample): the Haishen configuration appends a topography
entry with maxlevel 4 although amr_levels_max is 2, so topography entries
do not always satisfy maxlevel at most amr_levels_max. -/
theorem c2_haishen_maxlevel_exceeds :
    ¬ ∀ e ∈ (setrun_body .haishen "/run").topofiles,
        e.maxlevel ≤ (setrun_body .haishen "/run").amrdata.amr_levels_max := by
  decide

/-- C2 (amended): every topography entry of either configuration has
1 at most minlevel, minlevel at most maxlevel, and a validity window
[t1, t2] equal to [t0, tfinal]; maxlevel at most amr_levels_max holds
throughout the Hagibis configuration, but the Haishen configuration's
single entry has maxlevel 4 above its amr_levels_max of 2. -/
theorem c2_topography_entry_bounds (cwd : String) :
    (∀ e ∈ (setrun_body .hagibis cwd).topofiles,
      1 ≤ e.minlevel ∧ e.minlevel ≤ e.maxlevel ∧
      e.maxlevel ≤ (setrun_body .hagibis cwd).amrdata.amr_levels_max ∧
      (setrun_body .hagibis cwd).clawdata.t0 ≤ e.t1 ∧ e.t1 ≤ e.t2 ∧
      e.t2 ≤ (setrun_body .hagibis cwd).clawdata.tfinal) ∧
    (∀ e ∈ (setrun_body .haishen cwd).topofiles,
      1 ≤ e.minlevel ∧ e.minlevel ≤ e.maxlevel ∧
      (setrun_body .haishen cwd).clawdata.t0 ≤ e.t1 ∧ e.t1 ≤ e.t2 ∧
      e.t2 ≤ (setrun_body .haishen cwd).clawdata.tfinal) := by
  rw [hagibis_topofiles, haishen_topofiles, hagibis_amrdata, hagibis_t0,
    hagibis_tfinal, haishen_t0, haishen_tfinal]
  constructor
  · intro e he
    simp only [List.mem_cons, List.not_mem_nil, or_false] at he
    rcases he with rfl | rfl | rfl | rfl | rfl <;> norm_num [days2seconds]
  · intro e he
    simp only [List.mem_cons, List.not_mem_nil, or_false] at he
    rcases he with rfl
    norm_num [days2seconds]

/-- C3 (counterexample): the friction region both configurations append
has 2 coefficients and a depth list of 3 entries, so the coefficient
count does not equal the depth-threshold count plus one. -/
theorem c3_coefficients_not_thresholds_plus_one :
    ¬ ∀ r ∈ (setrun_body .hagibis "/run").friction_data.friction_regions,
        r.coefficients.length = r.depths.length + 1 := by decide

/-- C3 (amended): every friction region of either configuration has a
coefficient count equal to its depth-list length minus one (the depth
list carries the sentinels plus and minus infinity, so the coefficients
number one more than the finite interior thresholds), and the depth list
is strictly descending. -/
theorem c3_friction_table_shape (cwd : String) :
    (∀ r ∈ (setrun_body .hagibis cwd).friction_data.friction_regions,
      r.coefficients.length = r.depths.length - 1 ∧
      fdepthsDescending r.depths = true) ∧
    (∀ r ∈ (setrun_body .haishen cwd).friction_data.friction_regions,
      r.coefficients.length = r.depths.length - 1 ∧
      fdepthsDescending r.depths = true) := by
  rw [hagibis_friction_regions, haishen_friction_regions]
  exact ⟨by decide, by decide⟩

/-- C4: a configuration designates a capacity aux slot exactly when its
coordinate system is geographic: coordinate_system 2 holds exactly when
capa_index is 2 (whose aux slot is typed capacity), coordinate_system 1
exactly when capa_index is 0, and the modelled validator flags a
geographic variant of the Hagibis configuration that leaves capa_index
unset. -/
theorem c4_capacity_aux_iff_geographic (v : Variant) (cwd : String) :
    ((setrun_body v cwd).geo_data.coordinate_system = 2 ↔
      (setrun_body v cwd).clawdata.capa_index = 2) ∧
    ((setrun_body v cwd).geo_data.coordinate_system = 1 ↔
      (setrun_body v cwd).clawdata.capa_index = 0) ∧
    ((setrun_body v cwd).clawdata.capa_index ≠ 0 →
      (setrun_body v cwd).amrdata.aux_type.getD
        ((setrun_body v cwd).clawdata.capa_index - 1) "" = "capacity") ∧
    capacityAuxValid (setrun_body v cwd) ∧
    ¬ capacityAuxValid { setrun_body .hagibis cwd with
        geo_data := { (setrun_body .hagibis cwd).geo_data with
          coordinate_system := 2 } } := by
  have hmod : ¬ capacityAuxValid { setrun_body .hagibis cwd with
      geo_data := { (setrun_body .hagibis cwd).geo_data with
        coordinate_system := 2 } } :=
    fun h => (h rfl).1 rfl
  cases v
  case hagibis =>
    refine ⟨?_, ?_, ?_, ?_, hmod⟩
    · rw [hagibis_coordinate_system, hagibis_capa_index]; decide
    · rw [hagibis_coordinate_system, hagibis_capa_index]; decide
    · rw [hagibis_capa_index, hagibis_amrdata]; decide
    · rw [capacityAuxValid, hagibis_coordinate_system, hagibis_capa_index,
        hagibis_amrdata]; decide
  case haishen =>
    refine ⟨?_, ?_, ?_, ?_, hmod⟩
    · rw [haishen_coordinate_system, haishen_capa_index]
    · rw [haishen_coordinate_system, haishen_capa_index]; decide
    · rw [haishen_capa_index, haishen_amrdata]; decide
    · rw [capacityAuxValid, haishen_coordinate_system, haishen_capa_index,
        haishen_amrdata]; decide

/-- C5: both configurations use output_style 2 with an output-time list
that is strictly increasing and contained in [t0, tfinal], and the
modelled validator rejects the explicit list [0, 3600, 7200] against
tfinal 3600. -/
theorem c5_output_schedule_valid (v : Variant) (cwd : String) :
    (setrun_body v cwd).clawdata.output_style = 2 ∧
    outputTimesValid (setrun_body v cwd).clawdata.t0
      (setrun_body v cwd).clawdata.tfinal
      (setrun_body v cwd).clawdata.output_times ∧
    ¬ outputTimesValid 0 3600 [0, 3600, 7200] := by
  have hbad : ¬ outputTimesValid 0 3600 [0, 3600, 7200] := by
    intro h
    have hm : (7200 : ℚ) ∈ [(0 : ℚ), 3600, 7200] :=
      List.mem_cons_of_mem _ (List.mem_cons_of_mem _ (List.mem_cons_self _ _))
    have h2 := (h.2 7200 hm).2
    norm_num at h2
  cases v
  case hagibis =>
    refine ⟨rfl, ?_, hbad⟩
    rw [outputTimesValid, hagibis_t0, hagibis_tfinal, hagibis_output_times]
    constructor
    · exact rangeMulPairwise 3600.0 (by norm_num) 122
    · intro t ht
      obtain ⟨h0, h1⟩ := rangeMulBounds 3600.0 (by norm_num) 122 t ht
      exact ⟨h0, le_trans h1 (by norm_num)⟩
  case haishen =>
    refine ⟨rfl, ?_, hbad⟩
    rw [outputTimesValid, haishen_t0, haishen_tfinal, haishen_output_times]
    constructor
    · exact rangeMulPairwise 1200.0 (by norm_num) 360
    · intro t ht
      obtain ⟨h0, h1⟩ := rangeMulBounds 1200.0 (by norm_num) 360 t ht
      exact ⟨h0, le_trans h1 (by norm_num)⟩

/-- C6: the Hagibis configuration builds the domain with lower corner
(-1062000, -862000), upper corner (393570, 374870), 599 by 509 cells, the
Cartesian coordinate system and capa_index 0, and the domain satisfies
the modelled grid validation (positive extents and cell counts). -/
theorem c6_hagibis_grid_spec (cwd : String) :
    (setrun_body .hagibis cwd).clawdata.lower = [-1062000, -862000] ∧
    (setrun_body .hagibis cwd).clawdata.upper = [393570, 374870] ∧
    (setrun_body .hagibis cwd).clawdata.num_cells = [599, 509] ∧
    (setrun_body .hagibis cwd).geo_data.coordinate_system = 1 ∧
    (setrun_body .hagibis cwd).clawdata.capa_index = 0 ∧
    gridValid (setrun_body .hagibis cwd) := by
  refine ⟨?_, ?_, rfl, rfl, rfl, ?_⟩
  · rw [hagibis_lower]; norm_num
  · rw [hagibis_upper]; norm_num
  · rw [gridValid, hagibis_lower, hagibis_upper, hagibis_num_cells]
    constructor
    · intro p hp
      simp only [List.zip_cons_cons, List.zip_nil_right, List.mem_cons,
        List.not_mem_nil, or_false] at hp
      rcases hp with rfl | rfl <;> norm_num
    · intro n hn
      simp only [List.mem_cons, List.not_mem_nil, or_false] at hn
      rcases hn with rfl | rfl <;> norm_num

/-- C7 (counterexample): two invocations of the Hagibis setrun with the
same claw_pkg but different working directories return different
specifications, because topodir and storm_file embed os.getcwd(). -/
theorem c7_cwd_changes_specification :
    setrun .hagibis "geoclaw" "/runA" ≠ setrun .hagibis "geoclaw" "/runB" := by
  intro h
  have h1 : Except.ok (ε := String) (setrun_body .hagibis "/runA") =
      Except.ok (setrun_body .hagibis "/runB") := h
  have h2 : (setrun_body .hagibis "/runA").surge_data.storm_file =
      (setrun_body .hagibis "/runB").surge_data.storm_file :=
    congrArg (fun r => r.surge_data.storm_file) (Except.ok.inj h1)
  exact absurd h2 (by decide)

/-- C7 (amended): two invocations with the same claw_pkg that differ only
in the working directory agree on every field of the specification except
the recorded filesystem paths (topography file names, the ForceDry file
name, storm_file), which embed the working directory. -/
theorem c7_equal_up_to_paths (v : Variant) (claw_pkg a b : String) :
    Except.map stripPaths (setrun v claw_pkg a) =
      Except.map stripPaths (setrun v claw_pkg b) := by
  by_cases h : pyLower claw_pkg = "geoclaw"
  · simp only [setrun, if_pos h, Except.map]
    cases v <;> rfl
  · simp only [setrun, if_neg h]

/-- C8: within each configuration the gauge ids are pairwise distinct,
and the modelled add_gauge refuses any gauge whose id is already
registered with the duplicate-id error. -/
theorem c8_gauge_ids_unique (v : Variant) (cwd : String) :
    ((setrun_body v cwd).gauges.map Gauge.id).Nodup ∧
    ∀ g ∈ (setrun_body v cwd).gauges,
      add_gauge (setrun_body v cwd).gauges g =
        Except.error "DuplicateGaugeIdError" := by
  refine ⟨?_, fun g hg => add_gauge_mem_error _ g hg⟩
  cases v
  case hagibis => rw [hagibis_gauges]; decide
  case haishen => rw [haishen_gauges]; decide

/-- C9: days2seconds multiplies by 86400 seconds per day, and in both
configurations tfinal equals days2seconds 5 + 3600 = 435600 seconds. -/
theorem c9_days2seconds_value (v : Variant) (cwd : String) (d : ℚ) :
    days2seconds d = d * 86400 ∧
    days2seconds 5 + 3600.0 = 435600 ∧
    (setrun_body v cwd).clawdata.tfinal = 435600 := by
  refine ⟨?_, by norm_num [days2seconds], ?_⟩
  · rw [days2seconds]; ring
  · cases v
    case hagibis => exact hagibis_tfinal cwd
    case haishen => exact haishen_tfinal cwd

/-- C10: setrun fails exactly when the lowercased claw_pkg differs from
geoclaw, and otherwise returns the built specification; in particular the
case variants GeoClaw and GEOCLAW are accepted. -/
theorem c10_claw_pkg_assertion (v : Variant) (claw_pkg : String) (cwd : String) :
    (setrun v claw_pkg cwd = Except.ok (setrun_body v cwd) ↔
      pyLower claw_pkg = "geoclaw") ∧
    (setrun v claw_pkg cwd = Except.error "Expected claw_pkg = geoclaw" ↔
      pyLower claw_pkg ≠ "geoclaw") ∧
    setrun v "GeoClaw" cwd = Except.ok (setrun_body v cwd) ∧
    setrun v "GEOCLAW" cwd = Except.ok (setrun_body v cwd) := by
  refine ⟨?_, ?_, rfl, rfl⟩ <;> by_cases h : pyLower claw_pkg = "geoclaw" <;>
    simp [setrun, h]
